import Mathlib

/-!
Shallow embedding of `src/yocto_licenses.py` (yocto-license-parser).

The program is a one-pass pipeline over a license manifest:
record parsing → OR-license resolution through a persisted decision
store → grouping by recipe → merge/collapse → filter → license-file
evidence validation.  File I/O is modelled by explicit state: the
decision-store backing file is a section-keyed association list, the
evidence file tree is the list of existing relative paths, and the
interactive chooser (`input()`) is a function argument.
-/

namespace YoctoLicenses

/-- Python's default `str.strip()` whitespace characters (ASCII part,
which covers every string this program manipulates). -/
def isPySpace (c : Char) : Bool :=
  c = ' ' || c = '\t' || c = '\n' || c = '\r' || c = '\x0b' || c = '\x0c'

/-- Strip `isPySpace` characters from both ends of a character list. -/
def stripChars (l : List Char) : List Char :=
  ((l.dropWhile isPySpace).reverse.dropWhile isPySpace).reverse

/-- Python `s.strip()`. -/
def pyStrip (s : String) : String := ⟨stripChars s.data⟩

/-- Python text-mode line iteration (`for line in file`): every line keeps
its trailing newline; a final line without a newline is yielded as-is. -/
def pyLinesAux (acc : List Char) : List Char → List (List Char)
  | [] => if acc.isEmpty then [] else [acc.reverse]
  | c :: cs =>
      if c = '\n' then (('\n' :: acc).reverse) :: pyLinesAux [] cs
      else pyLinesAux (c :: acc) cs

/-- The lines of a manifest string, as Python's file iteration yields them. -/
def pyLines (s : String) : List String :=
  (pyLinesAux [] s.data).map fun l => ⟨l⟩

/-- Does the first list begin the second one?  (The character-level test
behind Python's `startswith` and substring search, written so that it
reduces structurally.) -/
def startsWithList : List Char → List Char → Bool
  | [], _ => true
  | _ :: _, [] => false
  | p :: ps, c :: cs => p == c && startsWithList ps cs

/-- Python `s.startswith(t)`. -/
def pyStartsWith (s t : String) : Bool := startsWithList t.data s.data

/-- Python `s.split(sep)` over characters, fuelled so the recursion is
structural: at each position a match of `sep` closes the current chunk and
skips `sep`; one unit of fuel per character is enough for a non-empty
separator. -/
def pySplitFuel (sep : List Char) : Nat → List Char → List Char → List (List Char)
  | 0, acc, _ => [acc.reverse]
  | _ + 1, acc, [] => [acc.reverse]
  | fuel + 1, acc, c :: cs =>
      if startsWithList sep (c :: cs) then
        acc.reverse :: pySplitFuel sep fuel [] ((c :: cs).drop sep.length)
      else
        pySplitFuel sep fuel (c :: acc) cs

/-- Python `s.split(sep)` for a non-empty separator. -/
def pySplit (s sep : String) : List String :=
  (pySplitFuel sep.data (s.data.length + 1) [] s.data).map fun l => ⟨l⟩

/-- Python `c in s` for a single character `c`. -/
def pyContains (s : String) (c : Char) : Bool := s.data.contains c

/-- Python list indexing with an `int` subscript: non-negative indices from
the front, negative indices from the back, out of range → `IndexError`
(here `none`). -/
def pyIdx (l : List String) (i : Int) : Option String :=
  if 0 ≤ i then l.get? i.toNat
  else if i.natAbs ≤ l.length then l.get? (l.length - i.natAbs)
  else none

/-- `class Package`: one manifest record.  Fields that Python initialises
to `None` are `Option`s. -/
structure Package where
  package_name : Option String
  package_version : Option String
  recipe_name : Option String
  license_string : Option String
  licenses : List String
deriving DecidableEq, Repr

/-- `Package()`: the freshly initialised record. -/
def emptyPackage : Package := ⟨none, none, none, none, []⟩

/-- The abort conditions of the program.  The bare `raise` statements of
the source are mapped to the spec taxonomy's names
(`AmbiguousLicenseExpression`, `InconsistentChoiceLicense`,
`InconsistentCombinedLicense`, `InvalidPersistedChoice`,
`InsufficientLicenseEvidence`); the remaining constructors name unintended
Python runtime errors the code can hit. -/
inductive Err where
  /-- Bare raise at the mixed `&`/`|` check while parsing a LICENSE line. -/
  | AmbiguousLicenseExpression
  /-- Bare raise in `userChoice` when the persisted choice is not a candidate. -/
  | InvalidPersistedChoice
  /-- Bare raise in the merge sanity check for `|` expressions. -/
  | InconsistentChoiceLicense
  /-- Bare raise in the merge sanity check for `&` expressions. -/
  | InconsistentCombinedLicense
  /-- Bare raise in the license-file evidence check. -/
  | InsufficientLicenseEvidence
  /-- Python `TypeError`: the merge sanity check evaluates
  `"|" in sanitypack.license_string` on a record whose `license_string`
  is still `None`. -/
  | TypeErrorNoneMembership
  /-- Python `IndexError`: `tmp[1]` on a recognised key line with no
  `": "` delimiter, or `licenses[index]` with an out-of-range choice. -/
  | IndexError
  /-- Python `AttributeError`: a `None` field used where a string method
  is needed (`split`/`startswith`). -/
  | AttributeErrorNone
deriving DecidableEq, Repr

/-- One persisted section of the decision-store backing file, with the four
keys `updateConfigFile` always writes (`ChosenLicense`, `LicenseFiles`,
`AdditionalFiles`, `SkipLicenseCountCheck`).  `json.dumps(None) = "null"`
round-trips a `None` file list, hence the `Option`s. -/
structure StoredSection where
  chosenLicense : String
  licenseFiles : Option (List String)
  additionalFiles : Option (List String)
  skipLicenseCountCheck : Bool
deriving DecidableEq, Repr

/-- The decision-store backing file: section name → stored keys, in file
order. -/
abbrev Config := List (String × StoredSection)

/-- Look a section up by name. -/
def configGet (cfg : Config) (s : String) : Option StoredSection :=
  match cfg with
  | [] => none
  | (k, v) :: rest => if k = s then some v else configGet rest s

/-- Replace a section in place, or append it (`add_section`) when absent. -/
def configSet (cfg : Config) (s : String) (v : StoredSection) : Config :=
  match cfg with
  | [] => [(s, v)]
  | (k, w) :: rest => if k = s then (s, v) :: rest else (k, w) :: configSet rest s v

/-- `class ConfigObject`: the in-memory form of one section. -/
structure ConfigObject where
  section_name : String
  chosen_license : Option String
  license_files : Option (List String)
  additional_files : Option (List String)
  skip_license_count_check : Bool
deriving DecidableEq, Repr

/-- Python string formatting of a possibly-`None` field (`format` renders
`None` as `"None"`). -/
def fmtOpt : Option String → String
  | none => "None"
  | some s => s

/-- `ConfigObject.packageToSectionName`: `"{name}_{recipe}_{version}"`. -/
def packageToSectionName (p : Package) : String :=
  fmtOpt p.package_name ++ "_" ++ fmtOpt p.recipe_name ++ "_" ++ fmtOpt p.package_version

/-- `ConfigObject(package)`: the freshly initialised section object. -/
def mkConfigObject (p : Package) : ConfigObject :=
  ⟨packageToSectionName p, none, none, none, false⟩

/-- `Licenses.readConfigFile`: fetch the package's section, or `None`. -/
def readConfigFile (cfg : Config) (p : Package) : Option ConfigObject :=
  (configGet cfg (packageToSectionName p)).map fun st =>
    ⟨packageToSectionName p, some st.chosenLicense, st.licenseFiles,
      st.additionalFiles, st.skipLicenseCountCheck⟩

/-- `Licenses.updateConfigFile`: write the object's four keys into its
section and flush the whole store. -/
def updateConfigFile (cfg : Config) (co : ConfigObject) : Config :=
  configSet cfg co.section_name
    ⟨(co.chosen_license).getD "", co.license_files, co.additional_files,
      co.skip_license_count_check⟩

/-- The external chooser collaborator (`int(input("Choice (number): "))`):
from the package and the candidate list to an arbitrary integer. -/
abbrev Chooser := Package → List String → Int

/-- The prompt-and-persist arm of `userChoice`: index the candidate list
with the chooser's integer, strip the choice, store it. -/
def promptAndStore (ch : Chooser) (cfg : Config) (p : Package)
    (licenses : List String) (co : Option ConfigObject) :
    Except Err (String × Config) :=
  match pyIdx licenses (ch p licenses) with
  | none => .error .IndexError
  | some chosen0 =>
      let chosen := pyStrip chosen0
      let c := co.getD (mkConfigObject p)
      let c2 := { c with chosen_license := some chosen }
      .ok (chosen, updateConfigFile cfg c2)

/-- `Licenses.userChoice`: resolve an OR-expression, reusing a persisted
non-empty choice (validated against the candidate tokens) or prompting the
chooser and persisting the result. -/
def userChoice (ch : Chooser) (cfg : Config) (p : Package) :
    Except Err (String × Config) :=
  match p.license_string with
  | none => .error .AttributeErrorNone
  | some ls =>
      let licenses := (pySplit ls "|").map pyStrip
      match readConfigFile cfg p with
      | some c =>
          match c.chosen_license with
          | some cl =>
              if cl = "" then promptAndStore ch cfg p licenses (some c)
              else if cl ∈ licenses then .ok (cl, cfg)
              else .error .InvalidPersistedChoice
          | none => promptAndStore ch cfg p licenses (some c)
      | none => promptAndStore ch cfg p licenses none

/-- The state threaded through the manifest-parsing loop: the packages
appended so far, the in-progress record, and the decision store (which
OR-resolution writes through). -/
structure ParseState where
  packages : List Package
  current : Package
  cfg : Config
deriving DecidableEq, Repr

/-- The body of the `for line in file` loop of `parseManifest`: a blank
line flushes the in-progress record; otherwise the line is split on every
`": "` and dispatched on its first field. -/
def parseLine (ch : Chooser) (st : ParseState) (line : String) :
    Except Err ParseState :=
  if line = "\n" then
    .ok ⟨st.packages ++ [st.current], emptyPackage, st.cfg⟩
  else
    match pySplit line ": " with
    | [] => .ok st
    | t0 :: rest =>
      if t0 = "PACKAGE NAME" then
        match rest with
        | [] => .error .IndexError
        | v :: _ =>
            .ok ⟨st.packages, { st.current with package_name := some (pyStrip v) }, st.cfg⟩
      else if t0 = "PACKAGE VERSION" then
        match rest with
        | [] => .error .IndexError
        | v :: _ =>
            .ok ⟨st.packages, { st.current with package_version := some (pyStrip v) }, st.cfg⟩
      else if t0 = "RECIPE NAME" then
        match rest with
        | [] => .error .IndexError
        | v :: _ =>
            .ok ⟨st.packages, { st.current with recipe_name := some (pyStrip v) }, st.cfg⟩
      else if t0 = "LICENSE" then
        match rest with
        | [] => .error .IndexError
        | v :: _ =>
            let ls := pyStrip v
            let cur := { st.current with license_string := some ls }
            if pyContains ls '|' && pyContains ls '&' then
              .error .AmbiguousLicenseExpression
            else if pyContains ls '|' then
              match userChoice ch st.cfg cur with
              | .error e => .error e
              | .ok (chosen, cfg') =>
                  .ok ⟨st.packages, { cur with licenses := cur.licenses ++ [chosen] }, cfg'⟩
            else if pyContains ls '&' then
              .ok ⟨st.packages, { cur with licenses := (pySplit ls "&").map pyStrip }, st.cfg⟩
            else
              .ok ⟨st.packages, { cur with licenses := cur.licenses ++ [ls] }, st.cfg⟩
      else
        .ok st

/-- The whole parsing loop over the manifest's lines.  Note the final
in-progress record is not flushed at end of input: only a blank line
appends it. -/
def parseLines (ch : Chooser) (cfg : Config) (lines : List String) :
    Except Err ParseState :=
  lines.foldlM (parseLine ch) ⟨[], emptyPackage, cfg⟩

/-- Append a package to its key's group, or open a new group at the end
(Python dict insertion order). -/
def addToGroup (groups : List (Option String × List Package))
    (k : Option String) (p : Package) : List (Option String × List Package) :=
  match groups with
  | [] => [(k, [p])]
  | (k', l) :: rest =>
      if k' = k then (k', l ++ [p]) :: rest else (k', l) :: addToGroup rest k p

/-- The `self.recipes` dictionary: packages grouped by `recipe_name` in
first-seen order. -/
def groupByRecipe (pkgs : List Package) : List (Option String × List Package) :=
  pkgs.foldl (fun g p => addToGroup g p.recipe_name p) []

/-- `all_licenses` of a recipe group: the members' license lists
concatenated, deduplicated (`list(set(...))`; only its length and
membership are ever used, which `dedup` preserves). -/
def unionLicenses (g : List Package) : List String :=
  (g.foldl (fun a p => a ++ p.licenses) []).dedup

/-- The merge sanity loop: for each member, `"|" in license_string` with
too many union licenses or `"&" in license_string` with too few is a bare
raise; a member whose `license_string` is still `None` makes the
membership test itself a Python `TypeError`. -/
def sanityCheck (allLic : List String) : List Package → Except Err Unit
  | [] => .ok ()
  | p :: rest =>
      match p.license_string with
      | none => .error .TypeErrorNoneMembership
      | some s =>
          if pyContains s '|' && allLic.length ≠ 1 then .error .InconsistentChoiceLicense
          else if pyContains s '&' && allLic.length ≤ 1 then .error .InconsistentCombinedLicense
          else sanityCheck allLic rest

/-- The collapse condition of the merge rule: every member has the first
member's version, and every member's licenses sit inside the group
union. -/
def collapseCond (g : List Package) (first : Package) (allLic : List String) : Bool :=
  (g.all fun q => q.package_version == first.package_version) &&
  (g.all fun q => q.licenses.all fun l => allLic.contains l)

/-- The synthetic record a collapsed group is replaced by: named after the
recipe, carrying the first member's version, license string and license
list. -/
def mkMerged (recipe : Option String) (first : Package) : Package :=
  ⟨recipe, first.package_version, recipe, first.license_string, first.licenses⟩

/-- One iteration of the merge loop: sanity-check the group, and when the
collapse condition holds remove the members from the package list
(`list.remove`, identity equality) and append the synthetic record. -/
def mergeStep (pkgs : List Package) (recipe : Option String) (g : List Package) :
    Except Err (List Package) := do
  let allLic := unionLicenses g
  let _ ← sanityCheck allLic g
  match g with
  | [] => pure pkgs
  | first :: _ =>
      if collapseCond g first allLic then
        pure ((pkgs.filter fun q => !(g.contains q)) ++ [mkMerged recipe first])
      else
        pure pkgs

/-- The whole merge pass: fold the merge step over the recipe groups,
threading the mutated package list. -/
def mergePackages (pkgs : List Package) : Except Err (List Package) :=
  (groupByRecipe pkgs).foldlM (fun acc g => mergeStep acc g.1 g.2) pkgs

/-- One filter decision: `True` keeps the package.  The `CLOSED` test is
`len(licenses) == 1 and licenses[0] == "CLOSED"`; the meta-package test is
`package_name.startswith("packagegroup")`, a Python `AttributeError` when
the name is still `None`. -/
def filterStep (p : Package) : Except Err Bool :=
  if p.licenses = ["CLOSED"] then .ok false
  else
    match p.package_name with
    | none => .error .AttributeErrorNone
    | some n => .ok (!pyStartsWith n "packagegroup")

/-- The filter pass: keep the surviving packages in order. -/
def filterPackages (pkgs : List Package) : Except Err (List Package) :=
  pkgs.foldlM
    (fun acc p => do
      let keep ← filterStep p
      pure (if keep then acc ++ [p] else acc))
    []

/-- One iteration of the evidence-collection loop over a filtered package:
seed a missing section with an empty `ConfigObject`, then fail with the
bare raise unless the config lists at least `len(package.licenses)`
license files that all exist under the evidence root — downgraded to a
warning when `SkipLicenseCountCheck` is set.  `fs` is the set of existing
relative paths under the tmp directory. -/
def collectStep (fs : List String) (cfg : Config) (p : Package) :
    Except Err Config :=
  let seeded :=
    match readConfigFile cfg p with
    | none => (mkConfigObject p, updateConfigFile cfg (mkConfigObject p))
    | some c => (c, cfg)
  let co := seeded.1
  let cfg' := seeded.2
  let numLicFiles := (co.license_files.getD []).length
  if p.licenses.length > numLicFiles ||
      (numLicFiles > 0 && !((co.license_files.getD []).all fun f => fs.contains f)) then
    if co.skip_license_count_check then .ok cfg' else .error .InsufficientLicenseEvidence
  else .ok cfg'

/-- The evidence-collection pass over the filtered package list. -/
def collectLicenseFiles (fs : List String) (cfg : Config) (pkgs : List Package) :
    Except Err Config :=
  pkgs.foldlM (collectStep fs) cfg

/-- What a full `parseManifest` run leaves behind: the parsed records, the
post-merge package list, the filtered list, and the final decision
store. -/
structure ParseResult where
  parsed : List Package
  merged : List Package
  filtered : List Package
  config : Config
deriving DecidableEq, Repr

/-- `Licenses.parseManifest`: the full pipeline — parse the manifest's
lines (resolving OR-choices through the store/chooser), group by recipe,
merge, filter, validate license-file evidence. -/
def parseManifest (ch : Chooser) (fs : List String) (cfg : Config)
    (manifest : String) : Except Err ParseResult := do
  let st ← parseLines ch cfg (pyLines manifest)
  let merged ← mergePackages st.packages
  let filtered ← filterPackages merged
  let cfg2 ← collectLicenseFiles fs st.cfg filtered
  pure ⟨st.packages, merged, filtered, cfg2⟩

/-- The effective `conf_object` of the evidence-collection step: the
package's stored section, or the freshly seeded empty one. -/
def effectiveConfig (cfg : Config) (p : Package) : ConfigObject :=
  (readConfigFile cfg p).getD (mkConfigObject p)

/-! ### Concrete inputs used by counterexamples and witnesses -/

/-- A chooser that always answers `0`. -/
def chooser0 : Chooser := fun _ _ => 0

/-- A chooser that always answers `1`. -/
def chooser1 : Chooser := fun _ _ => 1

/-- A chooser that answers the Python-negative index `-1`. -/
def chooserNeg1 : Chooser := fun _ _ => -1

/-- An empty initial parse state over an empty decision store. -/
def stZero : ParseState := ⟨[], emptyPackage, []⟩

/-- Two paragraphs of one recipe `foo`, same version, licenses MIT and
BSD. -/
def manifestTwoSingles : String :=
  "PACKAGE NAME: foo-bin\nPACKAGE VERSION: 1.0\nRECIPE NAME: foo\nLICENSE: MIT\n\nPACKAGE NAME: foo-doc\nPACKAGE VERSION: 1.0\nRECIPE NAME: foo\nLICENSE: BSD\n\n"

/-- The record parsed from `manifestTwoSingles`'s first paragraph. -/
def fooBin : Package := ⟨some "foo-bin", some "1.0", some "foo", some "MIT", ["MIT"]⟩

/-- The record parsed from `manifestTwoSingles`'s second paragraph. -/
def fooDoc : Package := ⟨some "foo-doc", some "1.0", some "foo", some "BSD", ["BSD"]⟩

/-- The synthetic record the merge pass collapses `manifestTwoSingles`'s
group into. -/
def mergedFoo : Package := ⟨some "foo", some "1.0", some "foo", some "MIT", ["MIT"]⟩

/-- One full paragraph with no blank line after it. -/
def manifestNoTrailingBlank : String :=
  "PACKAGE NAME: foo\nPACKAGE VERSION: 1.0\nRECIPE NAME: foo\nLICENSE: MIT"

/-- One paragraph carrying no `LICENSE` key. -/
def manifestNoLicense : String :=
  "PACKAGE NAME: foo\nPACKAGE VERSION: 1.0\nRECIPE NAME: foo\n\n"

/-- The record parsed from `manifestNoLicense`. -/
def noLicensePkg : Package := ⟨some "foo", some "1.0", some "foo", none, []⟩

/-- One paragraph whose `LICENSE` key appears twice with value `CLOSED`. -/
def manifestDupClosed : String :=
  "PACKAGE NAME: foo\nPACKAGE VERSION: 1.0\nRECIPE NAME: foo\nLICENSE: CLOSED\nLICENSE: CLOSED\n\n"

/-- The record parsed from `manifestDupClosed`: its license list holds
`CLOSED` twice, so its license set is exactly `{CLOSED}`. -/
def dupClosedPkg : Package :=
  ⟨some "foo", some "1.0", some "foo", some "CLOSED", ["CLOSED", "CLOSED"]⟩

/-- A manifest whose first line has no `": "` delimiter. -/
def manifestGarbageLine : String := "GARBAGE LINE\nPACKAGE NAME: foo\nLICENSE: MIT\n\n"

/-- An AND-expression record whose token list repeats `MIT`: three license
entries, two distinct licenses. -/
def dupLicPkg : Package :=
  ⟨some "foo", some "1.0", some "foo", some "MIT & BSD-3-Clause & MIT",
    ["MIT", "BSD-3-Clause", "MIT"]⟩

/-- A decision store listing two existing license files for `dupLicPkg`. -/
def cfgTwoFiles : Config := [("foo_foo_1.0", ⟨"", some ["f1", "f2"], none, false⟩)]

/-- An OR-expression record whose second candidate token is empty
(`"MIT |"` splits into `MIT` and the empty string). -/
def emptyTokenPkg : Package := ⟨some "bar", some "1.0", some "bar", some "MIT |", []⟩

/-- The store after choosing `emptyTokenPkg`'s empty candidate: the
persisted choice is the empty string. -/
def cfgEmptyChoice : Config := [("bar_bar_1.0", ⟨"", none, none, false⟩)]

/-- The store after a later run chooses `emptyTokenPkg`'s first candidate. -/
def cfgMitChoice : Config := [("bar_bar_1.0", ⟨"MIT", none, none, false⟩)]

/-- An ordinary two-way OR-expression record with no prior decision. -/
def orPkg : Package := ⟨some "baz", some "2.0", some "baz", some "MIT | GPL-2.0", []⟩

/-- A two-section decision store used by the frame-property witness. -/
def cfgTwoSections : Config :=
  [("a_a_1", ⟨"MIT", some ["la"], none, false⟩), ("b_b_1", ⟨"GPL-2.0", none, none, true⟩)]

/-- The package whose section `cfgTwoSections`'s second entry is. -/
def pkgB : Package := ⟨some "b", some "1", some "b", some "GPL-2.0", ["GPL-2.0"]⟩

/-- A section object overwriting `cfgTwoSections`'s first entry. -/
def coA : ConfigObject := ⟨"a_a_1", some "Apache-2.0", some ["x"], some ["y"], true⟩

/-! ### Helper lemmas -/

/-- The head surviving a `dropWhile p` fails `p`. -/
theorem head_dropWhile_false {p : Char → Bool} {l : List Char} {c : Char}
    (h : (l.dropWhile p).head? = some c) : p c = false := by
  have H := List.head?_dropWhile_not p l
  rw [h] at H
  exact H

/-- `dropWhile` is a no-op on a list whose head (if any) fails `p`. -/
theorem dropWhile_eq_self_of_head {p : Char → Bool} {l : List Char}
    (h : ∀ c, l.head? = some c → p c = false) : l.dropWhile p = l := by
  cases l with
  | nil => rfl
  | cons x xs => exact List.dropWhile_cons_of_neg (by simp [h x rfl])

/-- A non-empty `dropWhile` keeps the last element. -/
theorem getLast?_dropWhile {p : Char → Bool} :
    ∀ {w : List Char}, w.dropWhile p ≠ [] → (w.dropWhile p).getLast? = w.getLast?
  | [], h => absurd rfl h
  | x :: xs, h => by
    rw [List.dropWhile_cons] at h ⊢
    by_cases hx : p x
    · simp only [hx, if_true] at h ⊢
      have hxs : xs ≠ [] := by
        intro he
        rw [he] at h
        exact h rfl
      rw [getLast?_dropWhile h]
      obtain ⟨y, ys, rfl⟩ := List.exists_cons_of_ne_nil hxs
      exact (List.getLast?_cons_cons).symm
    · simp [hx]

/-- Stripping both ends of a character list is idempotent. -/
theorem stripChars_idem (l : List Char) : stripChars (stripChars l) = stripChars l := by
  unfold stripChars
  set p := isPySpace
  set A := l.dropWhile p with hA
  set B := A.reverse.dropWhile p with hB
  have hstep1 : B.reverse.dropWhile p = B.reverse := by
    apply dropWhile_eq_self_of_head
    intro c hc
    rw [List.head?_reverse] at hc
    have hBne : B ≠ [] := by
      intro he
      rw [he] at hc
      simp at hc
    have : B.getLast? = A.reverse.getLast? := getLast?_dropWhile (hB ▸ hBne)
    rw [this, List.getLast?_reverse] at hc
    exact head_dropWhile_false (hA ▸ hc)
  rw [hstep1, List.reverse_reverse]
  have hstep2 : B.dropWhile p = B := by
    apply dropWhile_eq_self_of_head
    intro c hc
    exact head_dropWhile_false (hB ▸ hc)
  rw [hstep2]

/-- Python `strip()` is idempotent. -/
theorem pyStrip_idem (s : String) : pyStrip (pyStrip s) = pyStrip s :=
  congrArg String.mk (stripChars_idem s.data)

/-- Python indexing returns a member of the list. -/
theorem pyIdx_mem {l : List String} {i : Int} {x : String}
    (h : pyIdx l i = some x) : x ∈ l := by
  unfold pyIdx at h
  split at h
  · exact List.get?_mem h
  · split at h
    · exact List.get?_mem h
    · exact absurd h (by simp)

/-- Replacing a section leaves the lookup of that very section at the new
value. -/
theorem configGet_configSet_self (cfg : Config) (s : String) (v : StoredSection) :
    configGet (configSet cfg s v) s = some v := by
  induction cfg with
  | nil => simp [configSet, configGet]
  | cons kv rest ih =>
    obtain ⟨k, w⟩ := kv
    by_cases hk : k = s
    · simp [configSet, configGet, hk]
    · simp [configSet, configGet, hk, ih]

/-- Replacing one section leaves the lookup of every other section
unchanged. -/
theorem configGet_configSet_ne (cfg : Config) (s s' : String) (v : StoredSection)
    (h : s' ≠ s) : configGet (configSet cfg s v) s' = configGet cfg s' := by
  induction cfg with
  | nil => simp [configSet, configGet, Ne.symm h]
  | cons kv rest ih =>
    obtain ⟨k, w⟩ := kv
    by_cases hk : k = s
    · subst hk
      simp [configSet, configGet, Ne.symm h]
    · by_cases hk' : k = s'
      · subst hk'
        simp [configSet, configGet, h, hk]
      · simp [configSet, configGet, hk, hk', ih]

/-- Anything in the accumulator survives the license-concatenating fold. -/
theorem mem_foldl_licenses {x : String} :
    ∀ (g : List Package) (acc : List String), x ∈ acc →
      x ∈ g.foldl (fun a p => a ++ p.licenses) acc
  | [], _, h => h
  | q :: qs, acc, h =>
      mem_foldl_licenses qs (acc ++ q.licenses) (List.mem_append_left _ h)

/-- Every license of a group's first member is in the group's license
union. -/
theorem mem_unionLicenses_first {first : Package} {rest : List Package} {l : String}
    (h : l ∈ first.licenses) : l ∈ unionLicenses (first :: rest) := by
  unfold unionLicenses
  rw [List.mem_dedup]
  exact mem_foldl_licenses rest first.licenses (by simpa using h)

/-- A non-blank line leaves the appended-package list untouched: only a
blank line flushes the in-progress record. -/
theorem parseLine_ok_packages {ch : Chooser} {st st' : ParseState} {line : String}
    (hline : line ≠ "\n") (h : parseLine ch st line = .ok st') :
    st'.packages = st.packages := by
  unfold parseLine at h
  rw [if_neg hline] at h
  repeat' split at h
  all_goals try (cases h; rfl)
  all_goals try simp_all
  all_goals try (split at h)
  all_goals try simp_all
  all_goals try (split at h)
  all_goals try simp_all
  all_goals try (split at h)
  all_goals try (cases h; rfl)
  all_goals try simp_all

/-- Folding the parse loop over blank-free lines preserves the
appended-package list. -/
theorem parseLines_go_packages (ch : Chooser) :
    ∀ (lines : List String) (st st' : ParseState),
      (∀ l ∈ lines, l ≠ "\n") → lines.foldlM (parseLine ch) st = .ok st' →
      st'.packages = st.packages
  | [], _, _, _, h => by
      simp only [List.foldlM_nil] at h
      cases h
      rfl
  | l :: ls, st, st', hb, h => by
      rw [List.foldlM_cons] at h
      cases hpl : parseLine ch st l with
      | error e =>
          rw [hpl] at h
          have h' : (Except.error e : Except Err ParseState) = .ok st' := h
          cases h'
      | ok st1 =>
          rw [hpl] at h
          have h' : ls.foldlM (parseLine ch) st1 = .ok st' := h
          have h1 := parseLine_ok_packages (hb l (List.mem_cons_self _ _)) hpl
          have h2 := parseLines_go_packages ch ls st1 st'
            (fun x hx => hb x (List.mem_cons_of_mem _ hx)) h'
          rw [h2, h1]

/-! ### C1: what licenses the collapsed record carries -/

/-- C1 counterexample: recipe `foo` with members licensed `MIT` and `BSD`
(same version) satisfies the collapse conditions and is collapsed, yet the
synthetic record's license set is `{MIT}`, not the union `{MIT, BSD}` of
the pre-merge members' licenses. -/
theorem C1_counterexample :
    (parseLines chooser0 [] (pyLines manifestTwoSingles)).map ParseState.packages
        = .ok [fooBin, fooDoc] ∧
    collapseCond [fooBin, fooDoc] fooBin (unionLicenses [fooBin, fooDoc]) = true ∧
    mergePackages [fooBin, fooDoc] = .ok [mergedFoo] ∧
    mergedFoo.licenses = ["MIT"] ∧
    "BSD" ∈ unionLicenses [fooBin, fooDoc] ∧
    "BSD" ∉ mergedFoo.licenses := by
  exact ⟨rfl, rfl, rfl, rfl, by decide, by decide⟩

/-- C1 amended: when a sanity-checked recipe group satisfies the collapse
conditions, the synthetic merged record's license set equals the FIRST
pre-merge member's resolved licenses — a subset of (not necessarily all
of) the union of the members' licenses. -/
theorem C1_merged_licenses_are_firsts (pkgs : List Package) (r : Option String)
    (g : List Package) (first : Package) (rest : List Package)
    (hg : g = first :: rest)
    (hsan : sanityCheck (unionLicenses g) g = .ok ())
    (hcol : collapseCond g first (unionLicenses g) = true) :
    mergeStep pkgs r g
      = .ok ((pkgs.filter fun q => !(g.contains q)) ++ [mkMerged r first]) ∧
    (mkMerged r first).licenses = first.licenses ∧
    ∀ l ∈ first.licenses, l ∈ unionLicenses g := by
  subst hg
  refine ⟨?_, rfl, fun l hl => mem_unionLicenses_first hl⟩
  simp only [mergeStep, hsan]
  simp [hcol]

/-- C1 witness: the two-member `foo` group collapses to the first member's
licenses. -/
theorem C1_merged_licenses_are_firsts_witness :
    (mergeStep [fooBin, fooDoc] (some "foo") [fooBin, fooDoc]
      = .ok (([fooBin, fooDoc].filter fun q => !([fooBin, fooDoc].contains q))
          ++ [mkMerged (some "foo") fooBin])) ∧
    (mkMerged (some "foo") fooBin).licenses = fooBin.licenses ∧
    ∀ l ∈ fooBin.licenses, l ∈ unionLicenses [fooBin, fooDoc] :=
  C1_merged_licenses_are_firsts [fooBin, fooDoc] (some "foo") [fooBin, fooDoc]
    fooBin [fooDoc] rfl rfl rfl

/-! ### C2: the final paragraph is not flushed at end of input -/

/-- C2 counterexample: a manifest whose single (complete) paragraph is not
followed by a blank line parses to an EMPTY package list — the final
in-progress record holds the whole paragraph but is never appended. -/
theorem C2_counterexample :
    (parseLines chooser0 [] (pyLines manifestNoTrailingBlank)).map ParseState.packages
        = .ok [] ∧
    parseLines chooser0 [] (pyLines manifestNoTrailingBlank)
      = .ok ⟨[], ⟨some "foo", some "1.0", some "foo", some "MIT", ["MIT"]⟩, []⟩ :=
  ⟨rfl, rfl⟩

/-- C2 amended: the parser appends a record only on a blank line, so a
manifest with no blank line at all — in particular one whose final
paragraph is not followed by a trailing blank line — yields no package
from that trailing text: the parsed package list stays empty. -/
theorem C2_final_paragraph_dropped (ch : Chooser) (cfg : Config)
    (lines : List String) (st : ParseState) (hb : ∀ l ∈ lines, l ≠ "\n")
    (h : parseLines ch cfg lines = .ok st) : st.packages = [] := by
  have hgo := parseLines_go_packages ch lines ⟨[], emptyPackage, cfg⟩ st hb h
  simpa using hgo

/-- C2 witness: the blank-line-free manifest ends in the state whose
package list is empty. -/
theorem C2_final_paragraph_dropped_witness :
    (⟨[], ⟨some "foo", some "1.0", some "foo", some "MIT", ["MIT"]⟩, []⟩
        : ParseState).packages = [] :=
  C2_final_paragraph_dropped chooser0 [] (pyLines manifestNoTrailingBlank)
    ⟨[], ⟨some "foo", some "1.0", some "foo", some "MIT", ["MIT"]⟩, []⟩
    (by decide) rfl

/-! ### C3: a paragraph with no LICENSE key crashes the merge pass -/

/-- C3: a paragraph with no `LICENSE` key does parse to a record with no
license expression and zero resolved licenses, but downstream aggregation
does NOT tolerate it: the merge sanity check evaluates
`"|" in license_string` on `None` and the whole run dies with a Python
`TypeError` instead of completing. -/
theorem C3_no_license_crashes_aggregation :
    (parseLines chooser0 [] (pyLines manifestNoLicense)).map ParseState.packages
        = .ok [noLicensePkg] ∧
    noLicensePkg.license_string = none ∧
    noLicensePkg.licenses = [] ∧
    sanityCheck (unionLicenses [noLicensePkg]) [noLicensePkg]
        = .error .TypeErrorNoneMembership ∧
    parseManifest chooser0 [] [] manifestNoLicense
        = .error .TypeErrorNoneMembership :=
  ⟨rfl, rfl, rfl, rfl, rfl⟩

/-! ### C7: mixed AND/OR license expressions abort parsing -/

/-- C7: a manifest line recognised as a `LICENSE` key whose stripped value
contains both `&` and `|` makes parsing fail with
`AmbiguousLicenseExpression`; it is never silently resolved. -/
theorem C7_ambiguous_fatal (ch : Chooser) (st : ParseState) (line v : String)
    (rest : List String) (hline : line ≠ "\n")
    (hsplit : pySplit line ": " = "LICENSE" :: v :: rest)
    (hor : pyContains (pyStrip v) '|' = true)
    (hand : pyContains (pyStrip v) '&' = true) :
    parseLine ch st line = .error .AmbiguousLicenseExpression := by
  unfold parseLine
  rw [if_neg hline, hsplit]
  simp [hor, hand]

/-- C7 witness: the spec's own scenario line
`LICENSE: MIT & BSD-3-Clause | Apache-2.0`. -/
theorem C7_ambiguous_fatal_witness :
    parseLine chooser0 stZero "LICENSE: MIT & BSD-3-Clause | Apache-2.0\n"
      = .error .AmbiguousLicenseExpression :=
  C7_ambiguous_fatal chooser0 stZero _ "MIT & BSD-3-Clause | Apache-2.0\n" []
    (by decide) rfl (by decide) (by decide)

/-! ### C8: lines without the `": "` delimiter -/

/-- C8 counterexample: a manifest containing the non-blank, unsplittable
key line `GARBAGE LINE` parses without any error (the line is silently
ignored), refuting the claim that parsing fails with a `FormatError`. -/
theorem C8_counterexample :
    pySplit "GARBAGE LINE\n" ": " = ["GARBAGE LINE\n"] ∧
    parseLines chooser0 [] (pyLines manifestGarbageLine)
      = .ok ⟨[⟨some "foo", none, none, some "MIT", ["MIT"]⟩], emptyPackage, []⟩ :=
  ⟨rfl, rfl⟩

/-- C8 amended: a non-blank line that cannot be split on `": "` and is not
itself exactly a recognised key name is silently ignored — the parse state
is returned unchanged and no error of any kind is raised. -/
theorem C8_unsplittable_ignored (ch : Chooser) (st : ParseState) (line : String)
    (hline : line ≠ "\n") (hsplit : pySplit line ": " = [line])
    (h1 : line ≠ "PACKAGE NAME") (h2 : line ≠ "PACKAGE VERSION")
    (h3 : line ≠ "RECIPE NAME") (h4 : line ≠ "LICENSE") :
    parseLine ch st line = .ok st := by
  unfold parseLine
  rw [if_neg hline, hsplit]
  simp [h1, h2, h3, h4]

/-- C8 witness: the `GARBAGE LINE` line is ignored by the parsing step. -/
theorem C8_unsplittable_ignored_witness :
    parseLine chooser0 stZero "GARBAGE LINE\n" = .ok stZero :=
  C8_unsplittable_ignored chooser0 stZero "GARBAGE LINE\n"
    (by decide) rfl (by decide) (by decide) (by decide) (by decide)

/-! ### C9: writes never clobber unrelated sections -/

/-- C9: `updateConfigFile` for one section leaves every other package's
persisted section exactly as it was. -/
theorem C9_update_preserves_other_sections (cfg : Config) (co : ConfigObject)
    (p : Package) (h : packageToSectionName p ≠ co.section_name) :
    readConfigFile (updateConfigFile cfg co) p = readConfigFile cfg p := by
  unfold readConfigFile updateConfigFile
  rw [configGet_configSet_ne cfg co.section_name (packageToSectionName p) _ h]

/-- C9 witness: rewriting section `a_a_1` of a two-section store leaves
package `b`'s section untouched. -/
theorem C9_update_preserves_other_sections_witness :
    readConfigFile (updateConfigFile cfgTwoSections coA) pkgB
      = readConfigFile cfgTwoSections pkgB :=
  C9_update_preserves_other_sections cfgTwoSections coA pkgB (by decide)

/-! ### C10: the chooser's index is never range-checked -/

/-- C10: when no decision is stored, a negative chooser index `i` with
`natAbs i ≤ n` is accepted silently: `userChoice` selects the candidate
`n - natAbs i` positions from the front (counting from the end, Python
style) and persists that choice instead of failing. -/
theorem C10_negative_index_accepted (ch : Chooser) (cfg : Config) (p : Package)
    (s tok : String) (i : Int) (hs : p.license_string = some s)
    (hrc : readConfigFile cfg p = none)
    (hch : ch p ((pySplit s "|").map pyStrip) = i) (hneg : i < 0)
    (hle : i.natAbs ≤ ((pySplit s "|").map pyStrip).length)
    (htok : ((pySplit s "|").map pyStrip).get?
        (((pySplit s "|").map pyStrip).length - i.natAbs) = some tok) :
    userChoice ch cfg p
      = .ok (pyStrip tok,
          configSet cfg (packageToSectionName p) ⟨pyStrip tok, none, none, false⟩) := by
  simp only [userChoice, hs, hrc]
  simp only [promptAndStore, hch, pyIdx, if_neg (by omega : ¬(0 : Int) ≤ i), if_pos hle, htok]
  simp [updateConfigFile, mkConfigObject]

/-- C10 witness: candidates `MIT | GPL-2.0`, chooser answer `-1`: the last
candidate `GPL-2.0` is chosen and persisted. -/
theorem C10_negative_index_accepted_witness :
    userChoice chooserNeg1 [] orPkg
      = .ok ("GPL-2.0", [("baz_baz_2.0", ⟨"GPL-2.0", none, none, false⟩)]) :=
  C10_negative_index_accepted chooserNeg1 [] orPkg "MIT | GPL-2.0" "GPL-2.0" (-1)
    rfl rfl rfl (by decide) (by decide) rfl

/-! ### C4: the evidence count uses the raw license list, not distinct
licenses -/

/-- C4 counterexample: `dupLicPkg` has two DISTINCT licenses and a
Decision listing two license files, both existing under the evidence root
and with the skip flag unset — by the claim, validation must succeed — yet
`collectStep` fails, because the code compares against the raw license
list of length three. -/
theorem C4_counterexample :
    dupLicPkg.licenses.dedup.length = 2 ∧
    (effectiveConfig cfgTwoFiles dupLicPkg).license_files = some ["f1", "f2"] ∧
    (effectiveConfig cfgTwoFiles dupLicPkg).skip_license_count_check = false ∧
    (["f1", "f2"] : List String).all (fun f => (["f1", "f2"] : List String).contains f)
        = true ∧
    filterPackages [dupLicPkg] = .ok [dupLicPkg] ∧
    collectStep ["f1", "f2"] cfgTwoFiles dupLicPkg
        = .error .InsufficientLicenseEvidence :=
  ⟨rfl, rfl, rfl, rfl, rfl, rfl⟩

/-- C4 amended: with `required` the LENGTH of the record's resolved
license list (duplicates counted) and `have` the number of listed license
files, evidence validation fails exactly when `required > have` or some
listed file is missing (given `have > 0`) while the skip flag is unset;
with the flag set the step always succeeds (warning only) and the run
continues. -/
theorem C4_evidence_check_characterisation (fs : List String) (cfg : Config)
    (p : Package) :
    (collectStep fs cfg p = .error .InsufficientLicenseEvidence ↔
      ((((effectiveConfig cfg p).license_files.getD []).length < p.licenses.length ∨
          (0 < ((effectiveConfig cfg p).license_files.getD []).length ∧
            ∃ f ∈ (effectiveConfig cfg p).license_files.getD [], f ∉ fs)) ∧
        (effectiveConfig cfg p).skip_license_count_check = false)) ∧
    ((effectiveConfig cfg p).skip_license_count_check = true →
      ∃ cfg2, collectStep fs cfg p = .ok cfg2) := by
  unfold collectStep effectiveConfig
  cases hrc : readConfigFile cfg p with
  | none =>
      simp only [hrc, Option.getD_none]
      constructor
      · constructor
        · intro he
          split at he
          · split at he
            · exact absurd he (by simp)
            · refine ⟨?_, by rename_i hsk; simpa using hsk⟩
              rename_i hcond _
              simpa [List.all_eq_true, List.contains_iff_exists_mem_beq, beq_iff_eq,
                not_forall] using hcond
          · exact absurd he (by simp)
        · rintro ⟨hcond, hskip⟩
          simp [hskip]
          intro hle
          rcases hcond with hlt | hex
          · omega
          · exact hex
      · intro hskip
        exact ⟨updateConfigFile cfg (mkConfigObject p), by simp [hskip]⟩
  | some c =>
      simp only [hrc, Option.getD_some]
      constructor
      · constructor
        · intro he
          split at he
          · split at he
            · exact absurd he (by simp)
            · refine ⟨?_, by rename_i hsk; simpa using hsk⟩
              rename_i hcond _
              simpa [List.all_eq_true, List.contains_iff_exists_mem_beq, beq_iff_eq,
                not_forall] using hcond
          · exact absurd he (by simp)
        · rintro ⟨hcond, hskip⟩
          simp [hskip]
          intro hle
          rcases hcond with hlt | hex
          · omega
          · exact hex
      · intro hskip
        exact ⟨cfg, by simp [hskip]⟩

/-! ### C5: OR-choice resolution through the decision store -/

/-- C5 counterexample: for the OR-expression `MIT |` whose second
candidate token is empty, the first run persists the empty-string choice,
and the next run over the same record STILL consults the chooser (its
outcome depends on the chooser's answer), so re-prompting does happen. -/
theorem C5_counterexample :
    userChoice chooser1 [] emptyTokenPkg = .ok ("", cfgEmptyChoice) ∧
    userChoice chooser0 cfgEmptyChoice emptyTokenPkg = .ok ("MIT", cfgMitChoice) ∧
    userChoice chooser1 cfgEmptyChoice emptyTokenPkg = .ok ("", cfgEmptyChoice) :=
  ⟨rfl, rfl, rfl⟩

/-- C5 amended: a persisted NON-EMPTY choice is reused without consulting
the chooser and without touching the store (failing with
`InvalidPersistedChoice` when it is not a candidate token); with no prior
decision the chooser's choice is persisted immediately, and — provided the
chosen token is non-empty — every later run returns it unchanged for any
chooser, i.e. never re-prompts. -/
theorem C5_or_resolution (ch ch' : Chooser) (cfg : Config) (p : Package)
    (s : String) (hs : p.license_string = some s) :
    (∀ c cl, readConfigFile cfg p = some c → c.chosen_license = some cl → cl ≠ "" →
        cl ∈ (pySplit s "|").map pyStrip → userChoice ch cfg p = .ok (cl, cfg)) ∧
    (∀ c cl, readConfigFile cfg p = some c → c.chosen_license = some cl → cl ≠ "" →
        cl ∉ (pySplit s "|").map pyStrip →
        userChoice ch cfg p = .error .InvalidPersistedChoice) ∧
    (∀ t cfg', readConfigFile cfg p = none → userChoice ch cfg p = .ok (t, cfg') →
        t ≠ "" → userChoice ch' cfg' p = .ok (t, cfg')) := by
  refine ⟨?_, ?_, ?_⟩
  · intro c cl hrc hcl hne hmem
    simp [userChoice, hs, hrc, hcl, hne, hmem]
  · intro c cl hrc hcl hne hmem
    simp [userChoice, hs, hrc, hcl, hne, hmem]
  · intro t cfg' hrc hok hne
    simp only [userChoice, hs, hrc] at hok
    cases hidx : pyIdx ((pySplit s "|").map pyStrip)
        (ch p ((pySplit s "|").map pyStrip)) with
    | none => simp [promptAndStore, hidx] at hok
    | some chosen0 =>
        simp only [promptAndStore, hidx, Except.ok.injEq, Prod.mk.injEq] at hok
        obtain ⟨ht, hcfg⟩ := hok
        subst ht
        subst hcfg
        have hmem0 : chosen0 ∈ (pySplit s "|").map pyStrip := pyIdx_mem hidx
        have hidem : pyStrip chosen0 = chosen0 := by
          obtain ⟨o, _, rfl⟩ := List.mem_map.mp hmem0
          exact pyStrip_idem o
        have hmem1 : pyStrip chosen0 ∈ (pySplit s "|").map pyStrip := by
          rw [hidem]
          exact hmem0
        have hread : readConfigFile
            (updateConfigFile cfg
              { mkConfigObject p with chosen_license := some (pyStrip chosen0) }) p
            = some ⟨packageToSectionName p, some (pyStrip chosen0),
                none, none, false⟩ := by
          simp [readConfigFile, updateConfigFile, mkConfigObject,
            configGet_configSet_self]
        simp [userChoice, hs, hread, hne, hmem1]

/-- C5 witness: `MIT | GPL-2.0` with no prior decision, chooser answer 1:
the reuse, validation and write-through properties at this record. -/
theorem C5_or_resolution_witness :
    (∀ c cl, readConfigFile [] orPkg = some c → c.chosen_license = some cl →
        cl ≠ "" → cl ∈ (pySplit "MIT | GPL-2.0" "|").map pyStrip →
        userChoice chooser1 [] orPkg = .ok (cl, [])) ∧
    (∀ c cl, readConfigFile [] orPkg = some c → c.chosen_license = some cl →
        cl ≠ "" → cl ∉ (pySplit "MIT | GPL-2.0" "|").map pyStrip →
        userChoice chooser1 [] orPkg = .error .InvalidPersistedChoice) ∧
    (∀ t cfg', readConfigFile [] orPkg = none →
        userChoice chooser1 [] orPkg = .ok (t, cfg') → t ≠ "" →
        userChoice chooser0 cfg' orPkg = .ok (t, cfg')) :=
  C5_or_resolution chooser1 chooser0 [] orPkg "MIT | GPL-2.0" rfl

/-! ### C6: which records the filter drops -/

/-- C6 counterexample: the reachable record `dupClosedPkg` (one paragraph
with a duplicated `LICENSE: CLOSED` key) has license SET exactly
`{CLOSED}`, yet it passes the filter, because the code tests for the
one-element list. -/
theorem C6_counterexample :
    (parseLines chooser0 [] (pyLines manifestDupClosed)).map ParseState.packages
        = .ok [dupClosedPkg] ∧
    mergePackages [dupClosedPkg] = .ok [dupClosedPkg] ∧
    dupClosedPkg.licenses.dedup = ["CLOSED"] ∧
    filterPackages [dupClosedPkg] = .ok [dupClosedPkg] :=
  ⟨rfl, rfl, rfl, rfl⟩

/-- One filter decision, for a record that has a package name. -/
theorem filterStep_eq {p : Package} {n : String} (hn : p.package_name = some n) :
    filterStep p
      = .ok (!(p.licenses == ["CLOSED"]) && !(pyStartsWith n "packagegroup")) := by
  unfold filterStep
  by_cases hc : p.licenses = ["CLOSED"] <;> simp [hc, hn]

/-- The filter fold, with an arbitrary accumulator. -/
theorem filterPackages_go :
    ∀ (pkgs : List Package) (acc : List Package),
      (∀ p ∈ pkgs, p.package_name ≠ none) →
      pkgs.foldlM
          (fun acc p => do
            let keep ← filterStep p
            pure (if keep then acc ++ [p] else acc))
          acc
        = .ok (acc ++ pkgs.filter fun p =>
            !(p.licenses == ["CLOSED"]) &&
              !(pyStartsWith (fmtOpt p.package_name) "packagegroup"))
  | [], acc, _ => by
      simp only [List.foldlM_nil, List.filter_nil, List.append_nil]
      rfl
  | q :: qs, acc, h => by
      have hq : q.package_name ≠ none := h q (List.mem_cons_self _ _)
      obtain ⟨n, hn⟩ := Option.ne_none_iff_exists'.mp hq
      rw [List.foldlM_cons]
      have hf : (do
          let keep ← filterStep q
          pure (if keep then acc ++ [q] else acc) : Except Err (List Package))
          = .ok (if !(q.licenses == ["CLOSED"]) && !(pyStartsWith n "packagegroup")
              then acc ++ [q] else acc) := by
        rw [filterStep_eq hn]
        rfl
      rw [hf]
      have hrest := filterPackages_go qs
        (if !(q.licenses == ["CLOSED"]) && !(pyStartsWith n "packagegroup")
          then acc ++ [q] else acc)
        (fun x hx => h x (List.mem_cons_of_mem _ hx))
      have hbind : ((Except.ok
          (if !(q.licenses == ["CLOSED"]) && !(pyStartsWith n "packagegroup")
            then acc ++ [q] else acc) : Except Err (List Package)) >>=
          fun b => qs.foldlM (fun acc p => do
            let keep ← filterStep p
            pure (if keep then acc ++ [p] else acc)) b)
          = qs.foldlM (fun acc p => do
            let keep ← filterStep p
            pure (if keep then acc ++ [p] else acc))
            (if !(q.licenses == ["CLOSED"]) && !(pyStartsWith n "packagegroup")
              then acc ++ [q] else acc) := rfl
      rw [hbind, hrest]
      by_cases hk : (!(q.licenses == ["CLOSED"]) && !(pyStartsWith n "packagegroup"))
          = true
      · simp [List.filter_cons, hk, hn, fmtOpt]
      · simp only [Bool.not_eq_true] at hk
        simp [List.filter_cons, hk, hn, fmtOpt]

/-- C6 amended: on records that all have a package name, the filter keeps
exactly — unchanged and in order — those whose license LIST is not the
one-element list `[CLOSED]` and whose name does not start with
`packagegroup`.  (A record whose license list repeats `CLOSED` is kept
even though its license set is `{CLOSED}`.) -/
theorem C6_filter_characterisation (pkgs : List Package)
    (h : ∀ p ∈ pkgs, p.package_name ≠ none) :
    filterPackages pkgs
      = .ok (pkgs.filter fun p =>
          !(p.licenses == ["CLOSED"]) &&
            !(pyStartsWith (fmtOpt p.package_name) "packagegroup")) :=
  filterPackages_go pkgs [] h

/-- C6 witness: a CLOSED package and a `packagegroup-` package are
dropped; the ordinary record passes unchanged. -/
theorem C6_filter_characterisation_witness :
    filterPackages
        [mergedFoo,
          ⟨some "priv", some "1", some "priv", some "CLOSED", ["CLOSED"]⟩,
          ⟨some "packagegroup-core", some "1", some "pg", some "MIT", ["MIT"]⟩]
      = .ok [mergedFoo] :=
  C6_filter_characterisation
    [mergedFoo,
      ⟨some "priv", some "1", some "priv", some "CLOSED", ["CLOSED"]⟩,
      ⟨some "packagegroup-core", some "1", some "pg", some "MIT", ["MIT"]⟩]
    (by decide)

end YoctoLicenses
